import Mathlib

/-!
Verification of the pytestee test-quality analyzer.

This file gives a shallow embedding, in Lean 4, of the parts of the
pytestee code base that the verified properties talk about: the check
result data model, the rule validator and its static conflict groups,
the assertion checker and its rules, the pattern checker priority
logic, the comment based AAA detector, the logical flow detector, the
effective line counter, the select and ignore rule gating, the success
rate computation, the Japanese naming rule and the result counters.

Modelling conventions:
  - Python strings are Lean strings; operations such as split, strip,
    lower and startswith are re-implemented over the character list so
    that everything evaluates by kernel reduction.  Case folding is
    ASCII, which is what all the scanned markers use.
  - Python sets of rule ids are modelled by lists used up to
    membership; the static conflict groups are written in ascending
    order, so filtering a group by membership yields exactly the
    sorted intersection that the Python code prints.
  - CheckSuccess and CheckFailure are modelled by a single record
    carrying a severity field, which is how every creation site in the
    code tries to populate results.  The alias CheckResult itself is a
    typing.Union, so the calls CheckResult(...) in both base rule
    classes raise TypeError whenever they are executed; result
    construction is therefore embedded as a failing computation.
  - Fallible code (a dictionary lookup that can raise KeyError, a call
    with an unexpected keyword argument that raises TypeError, the
    Union instantiation above) is modelled with Except.
-/

namespace Pytestee

/-- Severity levels of a check result, from domain/models.py. -/
inductive CheckSeverity where
  | info : CheckSeverity
  | warning : CheckSeverity
  | error : CheckSeverity
deriving DecidableEq, Repr

/-- A check result, modelling CheckResultBase together with the severity
field of CheckFailure from domain/models.py. -/
structure CheckResult where
  checker_name : String
  rule_id : String
  severity : CheckSeverity
  message : String
  file_path : String
  line_number : Option Nat := none
  column : Option Nat := none
  function_name : Option String := none
deriving DecidableEq, Repr

/-- Python statements, at the granularity the analyzed code inspects:
assert statements, assignments, expression statements wrapping a call,
other expression statements, and any other statement which may carry a
nested body (if, for, while, try, with). -/
inductive Stmt where
  | assertStmt : Stmt
  | assign : Stmt
  | exprCall : Stmt
  | exprOther : Stmt
  | other : List Stmt → Stmt

mutual

/-- Number of assert statements inside one statement, descending into
nested bodies as ast.walk does in ASTParser.count_assert_statements. -/
def Stmt.assertCount : Stmt → Nat
  | .assertStmt => 1
  | .assign => 0
  | .exprCall => 0
  | .exprOther => 0
  | .other body => stmtListAssertCount body

/-- Number of assert statements in a statement list, as counted by
ASTParser.count_assert_statements over a function body. -/
def stmtListAssertCount : List Stmt → Nat
  | [] => 0
  | s :: rest => s.assertCount + stmtListAssertCount rest

end

/-- A test function, from domain/models.py (TestFunction). -/
structure TestFunction where
  name : String
  lineno : Nat
  end_lineno : Option Nat
  body : List Stmt

/-- A test file, from domain/models.py (TestFile). -/
structure TestFile where
  path : String
  content : String

/-- Checker configuration, from domain/models.py (CheckerConfig); the
parameter map holds integer thresholds such as min_asserts. -/
structure CheckerConfig where
  name : String
  enabled : Bool := true
  config : List (String × Int) := []

/-- Configuration value lookup with default, from the _get_config_value
helpers of the PTAS rules: the default is used when no config object is
given or its parameter map is empty. -/
def getConfigValue (config : Option CheckerConfig) (key : String) (dflt : Int) : Int :=
  match config with
  | some c => if c.config ≠ [] then (c.config.lookup key).getD dflt else dflt
  | none => dflt

/-- Global configuration state of ConfigManager in
infrastructure/config/settings.py: select patterns, ignore patterns and
the per rule severity table. -/
structure ConfigState where
  select : List String := []
  ignore : List String := []
  severity : List (String × String) := []

/-! Python string helpers, re-implemented over character lists. -/

/-- Characters the Python regex class for whitespace and str.strip
recognize in the analyzed ASCII sources: space, tab, newline, carriage
return, vertical tab and form feed. -/
def isPySpace (c : Char) : Bool :=
  c == ' ' || c == '\t' || c == '\n' || c == '\r' || c.toNat == 11 || c.toNat == 12

/-- Python str.strip: remove leading and trailing whitespace. -/
def pyStrip (s : String) : String :=
  String.mk (((s.toList.dropWhile isPySpace).reverse.dropWhile isPySpace).reverse)

/-- Python str.startswith, as a codepoint level prefix test. -/
def pyStartsWith (s pre : String) : Bool :=
  pre.toList.isPrefixOf s.toList

/-- Python str.lower, with ASCII case folding. -/
def pyToLower (s : String) : String :=
  String.mk (s.toList.map Char.toLower)

/-- Split a character list at newline characters, following Python
str.split with a newline separator. -/
def splitOnNewline : List Char → List (List Char)
  | [] => [[]]
  | c :: rest =>
      let r := splitOnNewline rest
      if c == '\n' then [] :: r
      else
        match r with
        | [] => [[c]]
        | h :: t => (c :: h) :: t

/-- The line list of a file content, following content.split with a
newline separator as used throughout the checkers. -/
def pyLines (content : String) : List String :=
  (splitOnNewline content.toList).map String.mk

/-! Rule validator, from infrastructure/rules/rule_validator.py. -/

/-- The static conflict groups CONFLICTING_RULE_GROUPS.  The Python code
stores each group as a set and sorts before printing; each group is
written here in ascending order so that filtering it by membership in
the selected set yields the sorted intersection directly. -/
def conflictingRuleGroups : List (List String) :=
  [["PTAS001", "PTAS005"],
   ["PTAS002", "PTAS005"],
   ["PTAS001", "PTAS002", "PTAS004", "PTAS005"]]

/-- RuleValidator._find_conflicts: the intersections of the selected set
with every conflict group from which more than one rule is selected. -/
def findConflicts (selectedRules : List String) : List (List String) :=
  conflictingRuleGroups.filterMap fun conflictGroup =>
    let intersection := conflictGroup.filter fun r => selectedRules.contains r
    if 1 < intersection.length then some intersection else none

/-- The error message RuleValidator.validate_rule_selection builds from
the list of violated intersections. -/
def conflictErrorMessage (conflicts : List (List String)) : String :=
  "Conflicting rules detected:\n" ++
    String.intercalate "\n"
      (conflicts.map fun conflictGroup =>
        "Rules " ++ String.intercalate ", " conflictGroup ++ " are mutually exclusive")

/-- RuleValidator.validate_rule_selection: raise a RuleConflictError
naming every violated group when any conflict group has more than one
selected member, return unit otherwise. -/
def validateRuleSelection (selectedRules : List String) : Except String Unit :=
  let conflicts := findConflicts selectedRules
  if conflicts ≠ [] then Except.error (conflictErrorMessage conflicts)
  else Except.ok ()

/-- Aggregate result of a run, from domain/models.py (AnalysisResult). -/
structure AnalysisResult where
  total_files : Nat
  total_tests : Nat
  passed_checks : Nat
  failed_checks : Nat
  check_results : List CheckResult
deriving DecidableEq, Repr

/-- AnalysisResult.success_rate; Python float division is modelled by
exact rational division. -/
def successRate (r : AnalysisResult) : ℚ :=
  let total := r.passed_checks + r.failed_checks
  if total = 0 then 100
  else ((r.passed_checks : ℚ) / (total : ℚ)) * 100

/-- The check command flow of adapters/cli/commands.py: the checker
registry validates the enabled rule selection while it is constructed,
and only when that validation succeeds does the use case analyze the
test files. -/
def checkCommand (selectedRules : List String)
    (analyze : List TestFile → AnalysisResult) (files : List TestFile) :
    Except String AnalysisResult :=
  match validateRuleSelection selectedRules with
  | Except.error e => Except.error e
  | Except.ok _ => Except.ok (analyze files)

/-- AnalyzeTestsUseCase._count_results: fold over the results counting a
result as passed exactly when its severity is INFO and as failed
otherwise. -/
def countResults (results : List CheckResult) : Nat × Nat :=
  results.foldl
    (fun pf r =>
      if r.severity = CheckSeverity.info then (pf.1 + 1, pf.2) else (pf.1, pf.2 + 1))
    (0, 0)

/-- Tail of AnalyzeTestsUseCase.execute: package the collected results
together with the counters computed by _count_results. -/
def mkAnalysisResult (totalFiles totalTests : Nat) (allResults : List CheckResult) :
    AnalysisResult :=
  let pf := countResults allResults
  { total_files := totalFiles
    total_tests := totalTests
    passed_checks := pf.1
    failed_checks := pf.2
    check_results := allResults }

/-! Rule gating, from ConfigManager in infrastructure/config/settings.py. -/

/-- ConfigManager._matches_pattern: exact match or prefix match. -/
def matchesPattern (ruleId pattern : String) : Bool :=
  ruleId == pattern || pyStartsWith ruleId pattern

/-- ConfigManager._matches_patterns: match against any pattern. -/
def matchesPatterns (ruleId : String) (patterns : List String) : Bool :=
  patterns.any fun pattern => matchesPattern ruleId pattern

/-- Second half of ConfigManager.is_rule_enabled: a rule is dropped when
the ignore list is non empty and matches it. -/
def ignoreGate (cfg : ConfigState) (ruleId : String) : Bool :=
  if !cfg.ignore.isEmpty && matchesPatterns ruleId cfg.ignore then false else true

/-- ConfigManager.is_rule_enabled: with a non empty select list only
matching rules pass, then the ignore list subtracts. -/
def isRuleEnabled (cfg : ConfigState) (ruleId : String) : Bool :=
  if !cfg.select.isEmpty && !matchesPatterns ruleId cfg.select then false
  else ignoreGate cfg ruleId

/-! Infrastructure rule base, from infrastructure/rules/base_rule.py. -/

/-- The severity_map dictionary of BaseRule._create_result; a lookup of
any other key raises KeyError. -/
def severityMap (s : String) : Option CheckSeverity :=
  if s = "info" then some CheckSeverity.info
  else if s = "warning" then some CheckSeverity.warning
  else if s = "error" then some CheckSeverity.error
  else none

/-- BaseRule._create_result of the infrastructure rules: the severity
string is resolved through severity_map while the call arguments are
evaluated, so an unknown severity string raises KeyError first; with a
known severity the construction then calls CheckResult, which is the
typing.Union alias of models.py and always raises TypeError when
instantiated, so no result is ever built. -/
def infraCreateResult (_ruleName _ruleId severity _message : String)
    (_testFile : TestFile) (_testFunction : TestFunction) : Except String CheckResult :=
  match severityMap severity with
  | some _ => Except.error "TypeError: Cannot instantiate typing.Union"
  | none => Except.error ("KeyError: " ++ severity)

/-! Assertion rules PTAS001, PTAS002, PTAS004, PTAS005, from
infrastructure/rules/ptas/.  PTAS003 (high_assertion_density) is listed
last; its module is not present in the sources, so the checker below is
parametric in its behavior. -/

/-- PTAS001.check (too_few_assertions).  When the assert count is below
the minimum, the source calls _create_result without a severity
argument, so the message lands in the severity position and the
following arguments shift; the severity_map lookup on the message text
then raises KeyError before any result can be produced. -/
def ptas001Check (testFunction : TestFunction) (testFile : TestFile)
    (config : Option CheckerConfig) : Except String (List CheckResult) :=
  let minAsserts := getConfigValue config "min_asserts" 1
  let assertCount : Int := stmtListAssertCount testFunction.body
  if assertCount < minAsserts then
    (infraCreateResult "too_few_assertions" "PTAS001"
        ("Too few assertions: " ++ toString assertCount ++
          " (minimum recommended: " ++ toString minAsserts ++ ")")
        "" testFile testFunction).map fun r => [r]
  else Except.ok []

/-- PTAS002.check (too_many_assertions): a warning result when the
assert count exceeds the maximum. -/
def ptas002Check (testFunction : TestFunction) (testFile : TestFile)
    (config : Option CheckerConfig) : Except String (List CheckResult) :=
  let maxAsserts := getConfigValue config "max_asserts" 3
  let assertCount : Int := stmtListAssertCount testFunction.body
  if maxAsserts < assertCount then
    (infraCreateResult "too_many_assertions" "PTAS002"
        "warning"
        ("Too many assertions: " ++ toString assertCount ++
          " (maximum recommended: " ++ toString maxAsserts ++ ")")
        testFile testFunction).map fun r => [r]
  else Except.ok []

/-- PTAS004.check (no_assertions): an error result exactly when the
test function contains no assert statement. -/
def ptas004Check (testFunction : TestFunction) (testFile : TestFile)
    (_config : Option CheckerConfig) : Except String (List CheckResult) :=
  if stmtListAssertCount testFunction.body = 0 then
    (infraCreateResult "no_assertions" "PTAS004"
        "error"
        "No assertions found - test function should verify expected behavior"
        testFile testFunction).map fun r => [r]
  else Except.ok []

/-- PTAS005.check (assertion_count_ok): an info result when the assert
count lies between the configured minimum and maximum. -/
def ptas005Check (testFunction : TestFunction) (testFile : TestFile)
    (config : Option CheckerConfig) : Except String (List CheckResult) :=
  let minAsserts := getConfigValue config "min_asserts" 1
  let maxAsserts := getConfigValue config "max_asserts" 3
  let assertCount : Int := stmtListAssertCount testFunction.body
  if minAsserts ≤ assertCount ∧ assertCount ≤ maxAsserts then
    (infraCreateResult "assertion_count_ok" "PTAS005"
        "info"
        ("Assertion count OK: " ++ toString assertCount ++ " assertions")
        testFile testFunction).map fun r => [r]
  else Except.ok []

/-- AssertionChecker.check_function from
infrastructure/checkers/assertion_checker.py: PTAS004 first and, when
it produces anything, return immediately; otherwise run PTAS001,
PTAS002 and the density rule PTAS003, and fall back to PTAS005 when no
result was produced.  The density rule is a parameter because its
module (high_assertion_density) is absent from the sources. -/
def assertionCheckerCheckFunction
    (ptas003Check : TestFunction → TestFile → Option CheckerConfig →
      Except String (List CheckResult))
    (testFunction : TestFunction) (testFile : TestFile)
    (config : Option CheckerConfig) : Except String (List CheckResult) := do
  let noAssertionsResults ← ptas004Check testFunction testFile config
  if noAssertionsResults ≠ [] then
    return noAssertionsResults
  let tooFewResults ← ptas001Check testFunction testFile config
  let tooManyResults ← ptas002Check testFunction testFile config
  let densityResults ← ptas003Check testFunction testFile config
  let results := tooFewResults ++ tooManyResults ++ densityResults
  if results = [] then
    let okResults ← ptas005Check testFunction testFile config
    return results ++ okResults
  return results

/-! Pattern checker, from infrastructure/checkers/pattern_checker.py.
The behavior of each of the five wired rules at the function under
check is abstracted into its enabled flag and its produced result
list. -/

/-- One pattern rule as the pattern checker sees it for a fixed test
function: whether configuration enables it and what its check returns
there. -/
structure PatternRule where
  isEnabledB : Bool
  results : List CheckResult

/-- The loop of PatternChecker.check_function: walk the rules in
priority order, skip disabled rules, and return the first result of the
first enabled rule whose check produced anything. -/
def patternCheckerLoop : List PatternRule → List CheckResult
  | [] => []
  | r :: rest =>
      if r.isEnabledB then
        match r.results with
        | [] => patternCheckerLoop rest
        | x :: _ => [x]
      else patternCheckerLoop rest

/-- PatternChecker.check_function, with the rule list in the priority
order fixed by the source: PTCM003, then PTCM001, then PTCM002, then
PTST001, then PTLG001. -/
def patternCheckerCheckFunction
    (ptcm003 ptcm001 ptcm002 ptst001 ptlg001 : PatternRule) : List CheckResult :=
  patternCheckerLoop [ptcm003, ptcm001, ptcm002, ptst001, ptlg001]

/-- Claim side reading of the priority logic: the verdict is the head
result of the first enabled rule with a non empty result list. -/
def firstEnabledVerdict (rules : List PatternRule) : Option CheckResult :=
  rules.findSome? fun r => if r.isEnabledB then r.results.head? else none

/-! Regular expression fragments used by the comment based detectors.
The patterns only use literal characters, a whitespace class starred or
plussed, and a small character alternative, so they are represented by
atom lists with exact regex semantics: a star of the whitespace class
may consume any number of leading whitespace characters. -/

/-- One atom of the comment marker patterns. -/
inductive RexAtom where
  | lit : Char → RexAtom
  | starSpace : RexAtom
  | plusSpace : RexAtom
  | oneOf : List Char → RexAtom

/-- Literal atoms of a marker word. -/
def lits (s : String) : List RexAtom :=
  s.toList.map RexAtom.lit

/-- Match a pattern against a prefix of the character list, with
backtracking over how many whitespace characters a starred or plussed
whitespace class consumes. -/
def matchAtoms : List RexAtom → List Char → Bool
  | [], _ => true
  | RexAtom.lit c :: ps, ds =>
      match ds with
      | [] => false
      | d :: rest => c == d && matchAtoms ps rest
  | RexAtom.oneOf cs :: ps, ds =>
      match ds with
      | [] => false
      | d :: rest => cs.contains d && matchAtoms ps rest
  | RexAtom.starSpace :: ps, ds =>
      (List.range ((ds.takeWhile isPySpace).length + 1)).any fun k =>
        matchAtoms ps (ds.drop k)
  | RexAtom.plusSpace :: ps, ds =>
      (List.range ((ds.takeWhile isPySpace).length + 1)).any fun k =>
        decide (1 ≤ k) && matchAtoms ps (ds.drop k)

/-- Match a pattern at any position, as re.search does. -/
def searchFrom (p : List RexAtom) : List Char → Bool
  | [] => matchAtoms p []
  | d :: ds => matchAtoms p (d :: ds) || searchFrom p ds

/-- Search a pattern in a string, as re.search does. -/
def reSearch (p : List RexAtom) (s : String) : Bool :=
  searchFrom p s.toList

/-- The three single AAA marker patterns of PTCM001: a hash, optional
whitespace, then arrange or act or assert. -/
def aaaSinglePats : List (List RexAtom) :=
  [RexAtom.lit '#' :: RexAtom.starSpace :: lits "arrange",
   RexAtom.lit '#' :: RexAtom.starSpace :: lits "act",
   RexAtom.lit '#' :: RexAtom.starSpace :: lits "assert"]

/-- The four combined AAA marker patterns of PTCM001. -/
def aaaCombinedPats : List (List RexAtom) :=
  [RexAtom.lit '#' :: RexAtom.starSpace :: lits "act" ++
    [RexAtom.starSpace, RexAtom.oneOf ['&', '/', ','], RexAtom.starSpace] ++ lits "assert",
   RexAtom.lit '#' :: RexAtom.starSpace :: lits "act" ++
    [RexAtom.plusSpace] ++ lits "and" ++ [RexAtom.plusSpace] ++ lits "assert",
   RexAtom.lit '#' :: RexAtom.starSpace :: lits "arrange" ++
    [RexAtom.starSpace, RexAtom.oneOf ['&', '/', ','], RexAtom.starSpace] ++ lits "act" ++
    [RexAtom.starSpace, RexAtom.oneOf ['&', '/', ','], RexAtom.starSpace] ++ lits "assert",
   RexAtom.lit '#' :: RexAtom.starSpace :: lits "arrange" ++
    [RexAtom.plusSpace] ++ lits "and" ++ [RexAtom.plusSpace] ++ lits "act" ++
    [RexAtom.plusSpace] ++ lits "and" ++ [RexAtom.plusSpace] ++ lits "assert"]

/-! Comment extraction, from ASTParser.find_comments. -/

/-- End line resolution used by the checkers: the expression joining
end_lineno with a fallback by a Python or treats a missing or zero end
line as absent and falls back to the start line plus the body length. -/
def pyEndLine (tf : TestFunction) (startLine : Nat) : Nat :=
  match tf.end_lineno with
  | some e => if e = 0 then startLine + tf.body.length else e
  | none => startLine + tf.body.length

/-- ASTParser.find_comments: the stripped lines of the function range
that start with a hash, paired with their one based line numbers. -/
def findComments (tf : TestFunction) (content : String) : List (Nat × String) :=
  let lines := pyLines content
  let startLine := tf.lineno - 1
  let endLine := pyEndLine tf startLine
  (List.range' startLine (min endLine lines.length - startLine)).filterMap fun i =>
    let line := pyStrip (lines.getD i "")
    if pyStartsWith line "#" then some (i + 1, line) else none

/-! Domain rule base, from domain/rules/base_rule.py. -/

/-- ConfigManager.get_rule_severity: severity string for a rule with
error as the default. -/
def getRuleSeverity (cfg : ConfigState) (ruleId : String) : String :=
  (cfg.severity.lookup ruleId).getD "error"

/-- BaseRule._get_severity_from_config of the domain rules: map the
configured severity string, lower cased, through the severity table,
with error as default and when no config manager is attached. -/
def getSeverityFromConfig (cm : Option ConfigState) (ruleId : String) : CheckSeverity :=
  match cm with
  | some cfg => (severityMap (pyToLower (getRuleSeverity cfg ruleId))).getD CheckSeverity.error
  | none => CheckSeverity.error

/-- BaseRule._create_result of the domain rules: the severity is
resolved first (with error as the default, never failing), and the
construction then calls CheckResult, the typing.Union alias of
models.py, which always raises TypeError when instantiated, so no
domain rule ever returns a built result. -/
def domainCreateResult (_ruleName _ruleId _message : String)
    (_testFile : TestFile) (_testFunction : TestFunction)
    (_severity : CheckSeverity) : Except String CheckResult :=
  Except.error "TypeError: Cannot instantiate typing.Union"

/-- BaseRule._create_success_result of the domain rules: always INFO. -/
def domainCreateSuccessResult (ruleName ruleId message : String)
    (testFile : TestFile) (testFunction : TestFunction)
    (_cm : Option ConfigState) : Except String CheckResult :=
  domainCreateResult ruleName ruleId message testFile testFunction CheckSeverity.info

/-- BaseRule._create_failure_result of the domain rules: severity taken
from configuration.  Its parameters are message, test file, test
function, line number and column; there is no severity parameter. -/
def domainCreateFailureResult (ruleName ruleId message : String)
    (testFile : TestFile) (testFunction : TestFunction)
    (cm : Option ConfigState) : Except String CheckResult :=
  domainCreateResult ruleName ruleId message testFile testFunction
    (getSeverityFromConfig cm ruleId)

/-- A call of BaseRule._create_failure_result that passes a severity
keyword argument.  The method accepts no such parameter, so Python
raises a TypeError at the call before any result is built. -/
def domainCreateFailureResultWithSeverityKw (_ruleName _ruleId _message : String)
    (_testFile : TestFile) (_testFunction : TestFunction)
    (_severity : CheckSeverity) : Except String CheckResult :=
  Except.error
    "TypeError: _create_failure_result got an unexpected keyword argument severity"

/-! AAA comment rule PTCM001, from domain/rules/ptcm/aaa_comment_pattern.py. -/

/-- PTCM001._check_patterns_in_comments: one point per comment that
matches at least one of the patterns; the inner loop breaks at the
first matching pattern. -/
def checkPatternsInComments (pats : List (List RexAtom)) :
    List (Nat × String) → Nat
  | [] => 0
  | c :: rest =>
      (if pats.any fun p => reSearch p (pyToLower c.2) then 1 else 0) +
        checkPatternsInComments pats rest

/-- PTCM001._check_combined_patterns_in_comments: one point per
matching pattern per comment; the inner loop does not break. -/
def checkCombinedPatternsInComments (pats : List (List RexAtom)) :
    List (Nat × String) → Nat
  | [] => 0
  | c :: rest =>
      pats.countP (fun p => reSearch p (pyToLower c.2)) +
        checkCombinedPatternsInComments pats rest

/-- The total AAA score PTCM001.check computes: single marker hits plus
twice the combined marker hits. -/
def totalAaaScore (comments : List (Nat × String)) : Nat :=
  checkPatternsInComments aaaSinglePats comments +
    checkCombinedPatternsInComments aaaCombinedPats comments * 2

/-- PTCM001.check of the domain rules: a success (INFO) result when
the total AAA score reaches two, a failure result with configured
severity otherwise; either way the result construction raises. -/
def ptcm001DomainCheck (testFunction : TestFunction) (testFile : TestFile)
    (cm : Option ConfigState) : Except String CheckResult :=
  let comments := findComments testFunction testFile.content
  if 2 ≤ totalAaaScore comments then
    domainCreateSuccessResult "aaa_pattern_comments" "PTCM001"
      "AAA pattern detected in comments" testFile testFunction cm
  else
    domainCreateFailureResult "aaa_pattern_comments" "PTCM001"
      "AAA pattern not detected in comments. Consider adding # Arrange, # Act, # Assert comments."
      testFile testFunction cm

/-- Claim side score of a comment list, following the claim wording:
each comment containing a single marker scores one and each comment
containing a combined marker scores two. -/
def claimAaaScore : List (Nat × String) → Nat
  | [] => 0
  | c :: rest =>
      (if aaaSinglePats.any fun p => reSearch p (pyToLower c.2) then 1 else 0) +
        (if aaaCombinedPats.any fun p => reSearch p (pyToLower c.2) then 2 else 0) +
        claimAaaScore rest

/-- Example file for the combined marker case: a test function whose
only comment is a hash followed by Act, an ampersand and Assert. -/
def combinedExampleFile : TestFile :=
  { path := "example_test.py"
    content := "def test_a():\n    # Act & Assert\n    assert result" }

/-- The test function of the combined marker example. -/
def combinedExampleFunction : TestFunction :=
  { name := "test_a"
    lineno := 1
    end_lineno := some 3
    body := [Stmt.assertStmt] }

/-! Logical flow categorization, shared verbatim by
PTLG001._categorize_statements in the infrastructure rules and by
AAAPatternChecker._categorize_statements. -/

/-- The current section tracked while walking the body. -/
inductive Phase where
  | arrange : Phase
  | act : Phase
  | assertPhase : Phase
deriving DecidableEq, Repr

/-- The three statement groups being collected. -/
structure Sections where
  arrange : List Stmt := []
  act : List Stmt := []
  assertSec : List Stmt := []

/-- One step of _categorize_statements: an assert switches the section
to assert and lands there; an assignment lands in arrange only while
the section is arrange and in act otherwise, without moving the
section; an expression statement wrapping a call lands in act and moves
the section to act unless it is already assert; anything else lands in
the current section. -/
def categorizeStep : Sections × Phase → Stmt → Sections × Phase
  | (s, _), Stmt.assertStmt =>
      ({ s with assertSec := s.assertSec ++ [Stmt.assertStmt] }, Phase.assertPhase)
  | (s, phase), Stmt.assign =>
      if phase = Phase.arrange then ({ s with arrange := s.arrange ++ [Stmt.assign] }, phase)
      else ({ s with act := s.act ++ [Stmt.assign] }, phase)
  | (s, phase), Stmt.exprCall =>
      let phase2 := if phase = Phase.arrange ∨ phase = Phase.act then Phase.act else phase
      ({ s with act := s.act ++ [Stmt.exprCall] }, phase2)
  | (s, phase), stmt =>
      match phase with
      | Phase.arrange => ({ s with arrange := s.arrange ++ [stmt] }, phase)
      | Phase.act => ({ s with act := s.act ++ [stmt] }, phase)
      | Phase.assertPhase => ({ s with assertSec := s.assertSec ++ [stmt] }, phase)

/-- _categorize_statements: fold the steps starting from empty sections
in the arrange phase. -/
def categorizeStatements (statements : List Stmt) : Sections :=
  (statements.foldl categorizeStep ({ arrange := [], act := [], assertSec := [] }, Phase.arrange)).1

/-- AAAPatternChecker._has_logical_aaa_flow: detected when the act and
assert groups are both non empty. -/
def aaaCheckerHasLogicalAaaFlow (s : Sections) : Bool :=
  decide (0 < s.act.length) && decide (0 < s.assertSec.length)

/-- PTLG001._has_logical_aaa_flow of the infrastructure rule: the
stricter variant that also requires a non empty arrange group. -/
def ptlg001HasLogicalAaaFlow (s : Sections) : Bool :=
  decide (0 < s.arrange.length) && decide (0 < s.act.length) &&
    decide (0 < s.assertSec.length)

/-- Statement counts per phase for the claim side walk. -/
structure FlowCounts where
  arrangeCount : Nat := 0
  actCount : Nat := 0
  assertCount : Nat := 0
deriving DecidableEq, Repr

/-- Claim side step, following the claim wording: the current phase
starts at arrange; an assignment while in arrange stays arrange and
otherwise counts as act; an expression statement wrapping a call pushes
the phase to act, except that the phase never reverts once the first
assert statement has switched it to assert permanently. -/
def specFlowStep : FlowCounts × Phase → Stmt → FlowCounts × Phase
  | (c, _), Stmt.assertStmt =>
      ({ c with assertCount := c.assertCount + 1 }, Phase.assertPhase)
  | (c, phase), Stmt.assign =>
      if phase = Phase.arrange then ({ c with arrangeCount := c.arrangeCount + 1 }, phase)
      else ({ c with actCount := c.actCount + 1 }, phase)
  | (c, phase), Stmt.exprCall =>
      let phase2 := if phase = Phase.assertPhase then phase else Phase.act
      ({ c with actCount := c.actCount + 1 }, phase2)
  | (c, phase), _ =>
      match phase with
      | Phase.arrange => ({ c with arrangeCount := c.arrangeCount + 1 }, phase)
      | Phase.act => ({ c with actCount := c.actCount + 1 }, phase)
      | Phase.assertPhase => ({ c with assertCount := c.assertCount + 1 }, phase)

/-- Claim side detection: walk the statements and require at least one
statement in the act phase and one in the assert phase. -/
def specLogicalFlowDetected (statements : List Stmt) : Bool :=
  let cp := statements.foldl specFlowStep ({ arrangeCount := 0, actCount := 0, assertCount := 0 }, Phase.arrange)
  decide (0 < cp.1.actCount) && decide (0 < cp.1.assertCount)

/-! Effective line counting, from
AssertDensityChecker._count_effective_lines. -/

/-- Effectiveness of one raw source line: after stripping it must be
non empty and must not start with a hash. -/
def effectiveLine (l : String) : Bool :=
  pyStrip l ≠ "" && !pyStartsWith (pyStrip l) "#"

/-- AssertDensityChecker._count_effective_lines: count the effective
lines with zero based indices from the line after the signature up to
the minimum of the end line and the file length. -/
def countEffectiveLines (tf : TestFunction) (testFile : TestFile) : Nat :=
  let lines := pyLines testFile.content
  let startLine := tf.lineno - 1
  let endLine := pyEndLine tf startLine
  ((List.range' (startLine + 1) (min endLine lines.length - (startLine + 1))).filter
    fun i => effectiveLine (lines.getD i "")).length

/-! Japanese naming rule PTNM001, from
domain/rules/ptnm/japanese_characters.py. -/

/-- PTNM001._contains_japanese_characters: some character lies in the
Hiragana, Katakana or CJK Unified Ideographs ranges. -/
def containsJapaneseCharacters (text : String) : Bool :=
  text.toList.any fun c =>
    (0x3040 ≤ c.toNat && c.toNat ≤ 0x309F) ||
      (0x30A0 ≤ c.toNat && c.toNat ≤ 0x30FF) ||
      (0x4E00 ≤ c.toNat && c.toNat ≤ 0x9FAF)

/-- PTNM001.check: every branch calls _create_failure_result with a
severity keyword argument, which that method does not accept, so every
branch raises TypeError instead of returning a result. -/
def ptnm001Check (testFunction : TestFunction) (testFile : TestFile)
    (_cm : Option ConfigState) : Except String CheckResult :=
  if !pyStartsWith testFunction.name "test_" then
    domainCreateFailureResultWithSeverityKw "japanese_characters_in_name" "PTNM001"
      "not a test function" testFile testFunction CheckSeverity.info
  else if containsJapaneseCharacters testFunction.name then
    domainCreateFailureResultWithSeverityKw "japanese_characters_in_name" "PTNM001"
      "japanese characters found in test method name" testFile testFunction CheckSeverity.info
  else
    domainCreateFailureResultWithSeverityKw "japanese_characters_in_name" "PTNM001"
      "no japanese characters in test method name" testFile testFunction CheckSeverity.warning

/-- Fixture file for the effective line count witness. -/
def effLinesExampleFile : TestFile :=
  { path := "d.py"
    content := "def test_b():\n    x = 1\n\n    # comment\n    assert x" }

/-- Fixture function for the effective line count witness. -/
def effLinesExampleFunction : TestFunction :=
  { name := "test_b"
    lineno := 1
    end_lineno := some 5
    body := [Stmt.assign, Stmt.assertStmt] }

/-! Theorems. -/

theorem countResults_foldl (results : List CheckResult) :
    ∀ p f : Nat,
      results.foldl
        (fun pf r =>
          if r.severity = CheckSeverity.info then (pf.1 + 1, pf.2) else (pf.1, pf.2 + 1))
        (p, f) =
      (p + results.countP (fun r => r.severity == CheckSeverity.info),
       f + results.countP (fun r => !(r.severity == CheckSeverity.info))) := by
  induction results with
  | nil => intro p f; simp
  | cons r rest ih =>
      intro p f
      by_cases h : r.severity = CheckSeverity.info <;>
        simp [List.foldl_cons, h, ih, List.countP_cons] <;> omega

/-- C10: for every list of check results, the counters computed by
_count_results satisfy passed plus failed equals the length of the
list, passed counts exactly the INFO results, failed counts the rest,
and the AnalysisResult built by execute inherits this balance. -/
theorem countResults_partition_spec (results : List CheckResult)
    (totalFiles totalTests : Nat) :
    (countResults results).1 + (countResults results).2 = results.length
    ∧ (countResults results).1 =
        results.countP (fun r => r.severity == CheckSeverity.info)
    ∧ (countResults results).2 =
        results.countP (fun r => !(r.severity == CheckSeverity.info))
    ∧ (mkAnalysisResult totalFiles totalTests results).passed_checks +
        (mkAnalysisResult totalFiles totalTests results).failed_checks =
        (mkAnalysisResult totalFiles totalTests results).check_results.length := by
  have h := countResults_foldl results 0 0
  have hsplit :
      results.countP (fun r => r.severity == CheckSeverity.info) +
        results.countP (fun r => !(r.severity == CheckSeverity.info)) = results.length := by
    have hlen := List.length_eq_countP_add_countP
      (fun r : CheckResult => r.severity == CheckSeverity.info) results
    simpa using hlen.symm
  have h1 : (countResults results).1 =
      results.countP (fun r => r.severity == CheckSeverity.info) := by
    rw [countResults, h]; simp
  have h2 : (countResults results).2 =
      results.countP (fun r => !(r.severity == CheckSeverity.info)) := by
    rw [countResults, h]; simp
  refine ⟨?_, h1, h2, ?_⟩
  · rw [h1, h2]; exact hsplit
  · simp only [mkAnalysisResult]
    rw [h1, h2]; exact hsplit

/-- C8: the success rate is one hundred when no checks ran and
otherwise the passed count divided by the total count times one
hundred; at three passed and one failed checks it is seventy five. -/
theorem successRate_spec (r : AnalysisResult) :
    (r.passed_checks + r.failed_checks = 0 → successRate r = 100)
    ∧ (r.passed_checks + r.failed_checks ≠ 0 →
        successRate r =
          (r.passed_checks : ℚ) / ((r.passed_checks : ℚ) + (r.failed_checks : ℚ)) * 100)
    ∧ (r.passed_checks = 3 → r.failed_checks = 1 → successRate r = 75) := by
  refine ⟨?_, ?_, ?_⟩
  · intro h; simp [successRate, h]
  · intro h; simp [successRate, h]
  · intro h3 h1; simp [successRate, h3, h1]; norm_num

theorem successRate_spec_witness :
    successRate
        { total_files := 0, total_tests := 0, passed_checks := 3, failed_checks := 1,
          check_results := [] } = 75
    ∧ successRate
        { total_files := 0, total_tests := 0, passed_checks := 0, failed_checks := 0,
          check_results := [] } = 100 :=
  ⟨(successRate_spec _).2.2 rfl rfl, (successRate_spec _).1 rfl⟩

/-- C7: a rule is enabled exactly when the select list is empty or
matches it by exact or prefix match, and the ignore list does not match
it; in particular ignore subtracts after select. -/
theorem isRuleEnabled_select_ignore_spec (cfg : ConfigState) (ruleId : String) :
    isRuleEnabled cfg ruleId = true ↔
      ((cfg.select = [] ∨ matchesPatterns ruleId cfg.select = true)
        ∧ matchesPatterns ruleId cfg.ignore = false) := by
  rcases cfg with ⟨sel, ign, sev⟩
  simp only [isRuleEnabled, ignoreGate]
  cases sel with
  | nil =>
      cases ign with
      | nil => simp [matchesPatterns]
      | cons i it =>
          cases hm : matchesPatterns ruleId (i :: it) <;> simp [hm]
  | cons s st =>
      cases hs : matchesPatterns ruleId (s :: st)
      · simp [hs]
      · cases ign with
        | nil => simp [hs, matchesPatterns]
        | cons i it =>
            cases hm : matchesPatterns ruleId (i :: it) <;> simp [hs, hm]

theorem patternCheckerLoop_eq_firstEnabledVerdict (rules : List PatternRule) :
    patternCheckerLoop rules = (firstEnabledVerdict rules).toList := by
  induction rules with
  | nil => rfl
  | cons r rest ih =>
      by_cases h : r.isEnabledB
      · cases hres : r.results with
        | nil => simp [patternCheckerLoop, firstEnabledVerdict, h, hres, ih,
            List.findSome?_cons]
        | cons x xs => simp [patternCheckerLoop, firstEnabledVerdict, h, hres,
            List.findSome?_cons]
      · simp [patternCheckerLoop, firstEnabledVerdict, h, ih, List.findSome?_cons]

/-- C3: the pattern checker evaluates PTCM003, PTCM001, PTCM002,
PTST001 and PTLG001 in this order, skips disabled rules, returns
exactly the single head result of the first enabled rule whose check
produced a non empty result, and thus emits at most one verdict. -/
theorem patternChecker_priority_spec
    (ptcm003 ptcm001 ptcm002 ptst001 ptlg001 : PatternRule) :
    patternCheckerCheckFunction ptcm003 ptcm001 ptcm002 ptst001 ptlg001 =
      (firstEnabledVerdict [ptcm003, ptcm001, ptcm002, ptst001, ptlg001]).toList
    ∧ (patternCheckerCheckFunction ptcm003 ptcm001 ptcm002 ptst001 ptlg001).length ≤ 1 := by
  constructor
  · exact patternCheckerLoop_eq_firstEnabledVerdict _
  · rw [patternCheckerCheckFunction, patternCheckerLoop_eq_firstEnabledVerdict]
    cases firstEnabledVerdict [ptcm003, ptcm001, ptcm002, ptst001, ptlg001] <;> simp

theorem categorizeStep_assert_absorb (s : Sections) (stmt : Stmt) :
    (categorizeStep (s, Phase.assertPhase) stmt).2 = Phase.assertPhase := by
  cases stmt <;> simp [categorizeStep]

theorem categorize_assert_absorb (statements : List Stmt) :
    ∀ s0 : Sections,
      (statements.foldl categorizeStep (s0, Phase.assertPhase)).2 = Phase.assertPhase := by
  induction statements with
  | nil => intro s0; rfl
  | cons stmt rest ih =>
      intro s0
      rw [List.foldl_cons]
      rcases hstep : categorizeStep (s0, Phase.assertPhase) stmt with ⟨s1, p1⟩
      have hp : p1 = Phase.assertPhase := by
        have habs := categorizeStep_assert_absorb s0 stmt
        rw [hstep] at habs; exact habs
      rw [hp]
      exact ih s1

theorem categorize_spec_sim (statements : List Stmt) :
    ∀ (s : Sections) (c : FlowCounts) (phase : Phase),
      s.arrange.length = c.arrangeCount → s.act.length = c.actCount →
      s.assertSec.length = c.assertCount →
      ((statements.foldl categorizeStep (s, phase)).1.arrange.length =
          (statements.foldl specFlowStep (c, phase)).1.arrangeCount
        ∧ (statements.foldl categorizeStep (s, phase)).1.act.length =
          (statements.foldl specFlowStep (c, phase)).1.actCount
        ∧ (statements.foldl categorizeStep (s, phase)).1.assertSec.length =
          (statements.foldl specFlowStep (c, phase)).1.assertCount
        ∧ (statements.foldl categorizeStep (s, phase)).2 =
          (statements.foldl specFlowStep (c, phase)).2) := by
  induction statements with
  | nil => intro s c phase h1 h2 h3; exact ⟨h1, h2, h3, rfl⟩
  | cons stmt rest ih =>
      intro s c phase h1 h2 h3
      cases stmt <;> cases phase <;>
        simp only [List.foldl_cons, categorizeStep, specFlowStep] <;>
        exact ih _ _ _ (by simp [h1, h2, h3]) (by simp [h1, h2, h3]) (by simp [h1, h2, h3])

/-- C5: the statement walk shared by the logical flow detectors
implements exactly the phase rules of the specification (assignments
stay in arrange only while arranging, expression statements wrapping a
call push the phase to act, the first assert switches the phase to
assert and the phase never reverts), and the detector of
AAAPatternChecker reports the AAA pattern exactly when the act and
assert phases each received at least one statement. -/
theorem logicalFlow_detection_spec (statements : List Stmt) :
    aaaCheckerHasLogicalAaaFlow (categorizeStatements statements) =
      specLogicalFlowDetected statements
    ∧ (∀ s0 : Sections,
        (statements.foldl categorizeStep (s0, Phase.assertPhase)).2 = Phase.assertPhase) := by
  constructor
  · have h := categorize_spec_sim statements
      { arrange := [], act := [], assertSec := [] }
      { arrangeCount := 0, actCount := 0, assertCount := 0 } Phase.arrange rfl rfl rfl
    have hact := h.2.1
    have hass := h.2.2.1
    simp only [aaaCheckerHasLogicalAaaFlow, categorizeStatements, specLogicalFlowDetected,
      hact, hass]
  · exact categorize_assert_absorb statements

theorem filterMap_ite_eq_filter_map {α β : Type} (P : α → Prop) [DecidablePred P]
    (h : α → β) (l : List α) :
    (l.filterMap fun a => if P a then some (h a) else none) =
      ((l.filter fun a => decide (P a)).map h) := by
  induction l with
  | nil => rfl
  | cons a t ih => by_cases hP : P a <;> simp [hP, ih]

theorem findConflicts_eq (selectedRules : List String) :
    findConflicts selectedRules =
      ((conflictingRuleGroups.filter fun g =>
          decide (1 < (g.filter fun r => selectedRules.contains r).length)).map
        fun g => g.filter fun r => selectedRules.contains r) := by
  unfold findConflicts
  exact filterMap_ite_eq_filter_map
    (fun g => 1 < (g.filter fun r => selectedRules.contains r).length)
    (fun g => g.filter fun r => selectedRules.contains r) conflictingRuleGroups

/-- C1: the validator finds exactly the intersections of the selected
set with the conflict groups having more than one selected member;
when no group is violated it returns without error, and when some
group is violated the whole check command fails, before any file is
analyzed, with the error message built from every violated group. -/
theorem validateRuleSelection_conflict_spec (selectedRules : List String) :
    findConflicts selectedRules =
      ((conflictingRuleGroups.filter fun g =>
          decide (1 < (g.filter fun r => selectedRules.contains r).length)).map
        fun g => g.filter fun r => selectedRules.contains r)
    ∧ ((∀ g ∈ conflictingRuleGroups,
          (g.filter fun r => selectedRules.contains r).length ≤ 1) →
        validateRuleSelection selectedRules = Except.ok ())
    ∧ ((∃ g ∈ conflictingRuleGroups,
          1 < (g.filter fun r => selectedRules.contains r).length) →
        ∀ (analyze : List TestFile → AnalysisResult) (files : List TestFile),
          checkCommand selectedRules analyze files =
            Except.error (conflictErrorMessage (findConflicts selectedRules))) := by
  refine ⟨findConflicts_eq selectedRules, ?_, ?_⟩
  · intro hok
    have hnil : findConflicts selectedRules = [] := by
      rw [findConflicts_eq]
      have hfil : (conflictingRuleGroups.filter fun g =>
          decide (1 < (g.filter fun r => selectedRules.contains r).length)) = [] := by
        rw [List.filter_eq_nil_iff]
        intro g hg
        simpa using hok g hg
      rw [hfil]; rfl
    rw [validateRuleSelection]
    simp [hnil]
  · intro hex analyze files
    obtain ⟨g, hg, hlt⟩ := hex
    have hne : findConflicts selectedRules ≠ [] := by
      rw [findConflicts_eq]
      simp only [ne_eq, List.map_eq_nil_iff, List.filter_eq_nil_iff, not_forall]
      refine ⟨g, hg, ?_⟩
      simpa using hlt
    have hval : validateRuleSelection selectedRules =
        Except.error (conflictErrorMessage (findConflicts selectedRules)) := by
      rw [validateRuleSelection]
      simp [hne]
    rw [checkCommand, hval]

theorem validateRuleSelection_conflict_spec_witness :
    checkCommand ["PTAS001", "PTAS005"]
        (fun _ => (⟨0, 0, 0, 0, []⟩ : AnalysisResult)) [] =
      Except.error (conflictErrorMessage (findConflicts ["PTAS001", "PTAS005"])) :=
  (validateRuleSelection_conflict_spec ["PTAS001", "PTAS005"]).2.2
    ⟨["PTAS001", "PTAS005"], by decide, by decide⟩ _ _

/-- C2: the assertion checker cannot return the claimed single PTAS004
result: for a test function with zero assert statements PTAS004 does
fire first and nothing from any other assertion rule runs, but building
its result instantiates the typing.Union alias CheckResult, which
raises TypeError, so check_function raises that error instead of
returning the no assertions result, whatever the density rule PTAS003
would do. -/
theorem assertionChecker_no_assertions_bug
    (ptas003Check : TestFunction → TestFile → Option CheckerConfig →
      Except String (List CheckResult))
    (testFunction : TestFunction) (testFile : TestFile) (config : Option CheckerConfig)
    (h : stmtListAssertCount testFunction.body = 0) :
    assertionCheckerCheckFunction ptas003Check testFunction testFile config =
      Except.error "TypeError: Cannot instantiate typing.Union"
    ∧ ptas004Check testFunction testFile config =
      Except.error "TypeError: Cannot instantiate typing.Union" := by
  have h4 : ptas004Check testFunction testFile config =
      Except.error "TypeError: Cannot instantiate typing.Union" := by
    rw [ptas004Check]
    simp [h, infraCreateResult, severityMap, Except.map]
  constructor
  · rw [assertionCheckerCheckFunction, h4]
    rfl
  · exact h4

theorem assertionChecker_no_assertions_bug_witness :
    stmtListAssertCount ([] : List Stmt) = 0
    ∧ assertionCheckerCheckFunction (fun _ _ _ => Except.ok [])
        { name := "test_empty", lineno := 1, end_lineno := some 1, body := [] }
        { path := "t.py", content := "" } none =
      Except.error "TypeError: Cannot instantiate typing.Union" :=
  ⟨rfl, (assertionChecker_no_assertions_bug (fun _ _ _ => Except.ok [])
    { name := "test_empty", lineno := 1, end_lineno := some 1, body := [] }
    { path := "t.py", content := "" } none rfl).1⟩

theorem filter_range'_getD (lines : List String) (P : String → Bool) :
    ∀ (n a : Nat), a + n ≤ lines.length →
      ((List.range' a n).filter fun i => P (lines.getD i "")).length =
        (((lines.drop a).take n).filter P).length := by
  intro n
  induction n with
  | zero => intro a h; simp
  | succ n ih =>
      intro a h
      have ha : a < lines.length := by omega
      rw [List.range'_succ]
      rw [List.drop_eq_getElem_cons ha]
      rw [List.take_succ_cons]
      rw [List.filter_cons, List.filter_cons]
      have hgetD : lines.getD a "" = lines[a] := List.getD_eq_getElem lines "" ha
      rw [hgetD]
      by_cases hP : P lines[a]
      · rw [if_pos hP, if_pos hP]
        simp only [List.length_cons]
        rw [ih (a + 1) (by omega)]
      · rw [if_neg hP, if_neg hP]
        rw [ih (a + 1) (by omega)]

/-- C6: for a function with known start and end lines, the effective
line count of the density checker equals the number of lines strictly
after the signature line up to and including the end line whose
stripped content is neither empty nor starts with a hash. -/
theorem countEffectiveLines_spec (tf : TestFunction) (testFile : TestFile) (e : Nat)
    (h1 : tf.end_lineno = some e) (h2 : 1 ≤ tf.lineno) (h3 : tf.lineno ≤ e)
    (h4 : e ≤ (pyLines testFile.content).length) :
    countEffectiveLines tf testFile =
      (((pyLines testFile.content).drop tf.lineno).take (e - tf.lineno)).countP
        (fun l => pyStrip l ≠ "" && !pyStartsWith (pyStrip l) "#") := by
  have hend : pyEndLine tf (tf.lineno - 1) = e := by
    rw [pyEndLine, h1]
    have he0 : e ≠ 0 := by omega
    simp [he0]
  have key : countEffectiveLines tf testFile =
      ((List.range' (tf.lineno - 1 + 1)
          (min (pyEndLine tf (tf.lineno - 1)) (pyLines testFile.content).length -
            (tf.lineno - 1 + 1))).filter
        fun i => effectiveLine ((pyLines testFile.content).getD i "")).length := rfl
  have hstart : tf.lineno - 1 + 1 = tf.lineno := by omega
  rw [key, hend, hstart, Nat.min_eq_left h4, List.countP_eq_length_filter]
  exact filter_range'_getD (pyLines testFile.content) effectiveLine
    (e - tf.lineno) tf.lineno (by omega)

theorem countEffectiveLines_spec_witness :
    (effLinesExampleFunction.end_lineno = some 5)
    ∧ countEffectiveLines effLinesExampleFunction effLinesExampleFile =
      (((pyLines effLinesExampleFile.content).drop 1).take 4).countP
        (fun l => pyStrip l ≠ "" && !pyStartsWith (pyStrip l) "#") :=
  ⟨rfl, countEffectiveLines_spec effLinesExampleFunction effLinesExampleFile 5
    rfl (by decide) (by decide) (by decide)⟩

/-- C9: the Japanese naming rule crashes instead of producing its
documented one result per function: every branch of PTNM001.check
passes a severity keyword to BaseRule._create_failure_result, which
accepts no such parameter, so the call raises TypeError for Japanese
named, English named and non test prefixed functions alike, even
though the character range classification itself behaves as the claim
describes. -/
theorem ptnm001_typeerror_spec :
    ptnm001Check { name := "test_日本語機能", lineno := 1, end_lineno := some 2, body := [] }
        { path := "j.py", content := "" } none =
      Except.error
        "TypeError: _create_failure_result got an unexpected keyword argument severity"
    ∧ containsJapaneseCharacters "test_日本語機能" = true
    ∧ ptnm001Check { name := "test_feature_name", lineno := 1, end_lineno := some 2, body := [] }
        { path := "j.py", content := "" } none =
      Except.error
        "TypeError: _create_failure_result got an unexpected keyword argument severity"
    ∧ containsJapaneseCharacters "test_feature_name" = false
    ∧ ptnm001Check { name := "helper_function", lineno := 1, end_lineno := some 2, body := [] }
        { path := "j.py", content := "" } none =
      Except.error
        "TypeError: _create_failure_result got an unexpected keyword argument severity" :=
  ⟨rfl, rfl, rfl, rfl, rfl⟩

theorem countP_pos_any {α : Type} (l : List α) (f : α → Bool) (h : 0 < l.countP f) :
    l.any f = true := by
  rw [List.any_eq_true]
  exact List.countP_pos_iff.mp h

theorem claimAaaScore_le_totalAaaScore (comments : List (Nat × String)) :
    claimAaaScore comments ≤ totalAaaScore comments := by
  induction comments with
  | nil =>
      simp [claimAaaScore, totalAaaScore, checkPatternsInComments,
        checkCombinedPatternsInComments]
  | cons c rest ih =>
      have hcomb : (if aaaCombinedPats.any fun p => reSearch p (pyToLower c.2) then 2 else 0) ≤
          2 * aaaCombinedPats.countP fun p => reSearch p (pyToLower c.2) := by
        by_cases hany : (aaaCombinedPats.any fun p => reSearch p (pyToLower c.2)) = true
        · rw [if_pos hany]
          rw [List.any_eq_true] at hany
          obtain ⟨x, hx, hfx⟩ := hany
          have hpos : 0 < aaaCombinedPats.countP (fun p => reSearch p (pyToLower c.2)) :=
            List.countP_pos_iff.mpr ⟨x, hx, hfx⟩
          omega
        · rw [if_neg hany]; exact Nat.zero_le _
      simp only [claimAaaScore, totalAaaScore, checkPatternsInComments,
        checkCombinedPatternsInComments] at ih ⊢
      omega

theorem totalAaaScore_claim_bounds (comments : List (Nat × String)) :
    (1 ≤ totalAaaScore comments → 1 ≤ claimAaaScore comments)
    ∧ (2 ≤ totalAaaScore comments → 2 ≤ claimAaaScore comments) := by
  induction comments with
  | nil =>
      constructor <;> intro hle <;>
        simp [totalAaaScore, checkPatternsInComments,
          checkCombinedPatternsInComments] at hle
  | cons c rest ih =>
      have hexp_total : totalAaaScore (c :: rest) =
          (if aaaSinglePats.any (fun p => reSearch p (pyToLower c.2)) then 1 else 0) +
            (aaaCombinedPats.countP fun p => reSearch p (pyToLower c.2)) * 2 +
            totalAaaScore rest := by
        simp only [totalAaaScore, checkPatternsInComments, checkCombinedPatternsInComments]
        ring
      have hexp_claim : claimAaaScore (c :: rest) =
          (if aaaSinglePats.any (fun p => reSearch p (pyToLower c.2)) then 1 else 0) +
            (if aaaCombinedPats.any (fun p => reSearch p (pyToLower c.2)) then 2 else 0) +
            claimAaaScore rest := by
        simp only [claimAaaScore]
      by_cases hany : (aaaCombinedPats.any fun p => reSearch p (pyToLower c.2)) = true
      · constructor <;> intro hle <;>
          · rw [hexp_claim, if_pos hany]
            omega
      · have hk : (aaaCombinedPats.countP fun p => reSearch p (pyToLower c.2)) = 0 := by
          by_contra hk0
          exact hany (countP_pos_any _ _ (Nat.pos_of_ne_zero hk0))
        constructor
        · intro hle
          rw [hexp_total, hk] at hle
          rw [hexp_claim, if_neg hany]
          by_cases hs : (aaaSinglePats.any fun p => reSearch p (pyToLower c.2)) = true
          · rw [if_pos hs]; omega
          · rw [if_neg hs] at hle ⊢
            have hcl := ih.1 (by omega)
            omega
        · intro hle
          rw [hexp_total, hk] at hle
          rw [hexp_claim, if_neg hany]
          by_cases hs : (aaaSinglePats.any fun p => reSearch p (pyToLower c.2)) = true
          · rw [if_pos hs] at hle ⊢
            have hcl := ih.1 (by omega)
            omega
          · rw [if_neg hs] at hle ⊢
            have hcl := ih.2 (by omega)
            omega

/-- C4: the AAA comment rule cannot report any verdict: the score logic
does mark the single Act ampersand Assert comment as detected (the code
score reaches two there, and crossing the threshold two is equivalent
between the code score and the claim side score for every comment
list), but building either the success or the failure result
instantiates the typing.Union alias CheckResult, which raises
TypeError, so PTCM001.check raises on every input and never reports
detection. -/
theorem ptcm001_union_typeerror_spec :
    ptcm001DomainCheck combinedExampleFunction combinedExampleFile none =
      Except.error "TypeError: Cannot instantiate typing.Union"
    ∧ 2 ≤ totalAaaScore (findComments combinedExampleFunction combinedExampleFile.content)
    ∧ (∀ comments : List (Nat × String),
        2 ≤ totalAaaScore comments ↔ 2 ≤ claimAaaScore comments)
    ∧ (∀ (testFunction : TestFunction) (testFile : TestFile) (cm : Option ConfigState),
        ptcm001DomainCheck testFunction testFile cm =
          Except.error "TypeError: Cannot instantiate typing.Union") := by
  refine ⟨rfl, by decide, ?_, ?_⟩
  · intro comments
    constructor
    · intro h
      exact (totalAaaScore_claim_bounds comments).2 h
    · intro h
      exact le_trans h (claimAaaScore_le_totalAaaScore comments)
  · intro testFunction testFile cm
    simp only [ptcm001DomainCheck, domainCreateSuccessResult, domainCreateFailureResult,
      domainCreateResult, ite_self]

end Pytestee
